import Mathlib

/-!
The llamadart backend/device abstraction and logging facade.

A shallow embedding of `src/native/llama_dart.cpp`.

* C `int` values are integers in `[-2^31, 2^31)` (`IsCInt`); `size_t` values are
  naturals below `2^64`.  The two integer conversions the source performs
  implicitly are explicit here: `toSizeT` (`int` to `size_t`, modulo `2^64`)
  and `toCInt` (`size_t` to `int`, two's complement wrap-around).
* A `const char *` is `Option String`: `none` is the null pointer, `some s` a
  string whose characters are the `char`s before the terminator.
* Calls into the wrapped runtime and writes to the output streams are recorded
  as a list of `Event`s, in program order.
-/

namespace LlamaDart

/-! ## Machine integers and pointers -/

/-- The values of a C `int` (32 bit, two's complement). -/
def IsCInt (i : Int) : Prop := -(2 : Int) ^ 31 ≤ i ∧ i < (2 : Int) ^ 31

instance (i : Int) : Decidable (IsCInt i) := by
  unfold IsCInt; infer_instance

/-- Implicit conversion of an `int` to `size_t` (64 bit): reduction modulo `2^64`. -/
def toSizeT (i : Int) : Nat := (i % (2 : Int) ^ 64).toNat

/-- Implicit conversion of a `size_t` to `int`: the low 32 bits, read as two's complement. -/
def toCInt (n : Nat) : Int :=
  if n % 2 ^ 32 < 2 ^ 31 then ((n % 2 ^ 32 : Nat) : Int)
  else ((n % 2 ^ 32 : Nat) : Int) - (2 : Int) ^ 32

/-- An address; `ggml_backend_dev_t` and `void *` are addresses. -/
abbrev Handle := Nat

/-- The null pointer. -/
def nullptr : Handle := 0

/-- A `const char *`: `none` is the null pointer. -/
abbrev CStr := Option String

/-! ## The wrapped runtime -/

/-- The runtime's device registry, as the facade observes it through
`ggml_backend_dev_count`, `ggml_backend_dev_get`, `ggml_backend_dev_name` and
`ggml_backend_dev_description`. -/
structure Registry where
  /-- The value of `ggml_backend_dev_count()`, a `size_t`. -/
  count : Nat
  count_lt : count < 2 ^ 64
  /-- The handle stored at a position of the registry. -/
  dev : Nat → Handle
  /-- The value of `ggml_backend_dev_name(dev)`. -/
  name : Handle → CStr
  /-- The value of `ggml_backend_dev_description(dev)`. -/
  description : Handle → CStr

/-- The two output streams of the process. -/
inductive Channel
  | stdout
  | stderr
  deriving DecidableEq, Repr

/-- The entry points declared `EXPORT` in `llama_dart.cpp`. -/
inductive EntryPoint
  | llama_dart_get_backend_name
  | llama_dart_gpu_supported
  | llama_dart_init
  | llama_dart_get_device_count
  | llama_dart_get_device_name
  | llama_dart_get_device_description
  | llama_dart_get_device_pointer
  deriving DecidableEq, Repr

/-- Functions whose address the facade hands to the runtime. -/
inductive FnPtr
  | llama_dart_log_callback
  deriving DecidableEq, Repr

/-- Priorities passed to `__android_log_print`. -/
inductive AndroidPrio
  | ANDROID_LOG_INFO
  | ANDROID_LOG_ERROR
  deriving DecidableEq, Repr

/-- What a facade function does that is visible outside it, in program order. -/
inductive Event
  /-- A call of `llama_backend_init()`. -/
  | llama_backend_init
  /-- A call of `llama_log_set(cb, user_data)`. -/
  | llama_log_set (cb : FnPtr) (user_data : Handle)
  /-- A call of `llama_supports_gpu_offload()`. -/
  | llama_supports_gpu_offload
  /-- A call of `ggml_backend_dev_count()`. -/
  | ggml_backend_dev_count
  /-- A call of `ggml_backend_dev_get(index)`. -/
  | ggml_backend_dev_get (index : Nat)
  /-- A call of `ggml_backend_dev_name(dev)`. -/
  | ggml_backend_dev_name (dev : Handle)
  /-- A call of `ggml_backend_dev_description(dev)`. -/
  | ggml_backend_dev_description (dev : Handle)
  /-- A call of an exported entry point of the facade. -/
  | entry (f : EntryPoint)
  /-- A call of `fprintf(ch, ...)` that writes the formatted text `s`. -/
  | fprintf (ch : Channel) (s : String)
  /-- A call of `__android_log_print(prio, tag, ...)` with formatted text `msg`. -/
  | android_log_print (prio : AndroidPrio) (tag : String) (msg : String)
  deriving DecidableEq, Repr

/-- The outcome of a facade function that returns a value: the events it
caused and the value returned; `value = none` when the runtime aborted the
process before the function could return. -/
structure Ret (α : Type) where
  events : List Event
  value : Option α

/-- The call `ggml_backend_dev_get(index)`: the handle at `index`.  The runtime
asserts `index < ggml_backend_dev_count()` and aborts otherwise (`none`). -/
def ggml_backend_dev_get (reg : Registry) (index : Nat) : Option Handle :=
  if index < reg.count then some (reg.dev index) else none

/-! ## Device enumerator (`llama_dart.cpp`, lines 123-146) -/

/-- `int llama_dart_get_device_count() { return ggml_backend_dev_count(); }` -/
def llama_dart_get_device_count (reg : Registry) : Int := toCInt reg.count

/-- `const char *llama_dart_get_device_name(int index)`.  The guard
`index < 0 || index >= ggml_backend_dev_count()` short-circuits; its second
operand compares `index`, converted to `size_t`, with the registry's count. -/
def llama_dart_get_device_name (reg : Registry) (index : Int) : Ret CStr :=
  if index < 0 then ⟨[], some (some "")⟩
  else if reg.count ≤ toSizeT index then ⟨[.ggml_backend_dev_count], some (some "")⟩
  else
    match ggml_backend_dev_get reg (toSizeT index) with
    | none => ⟨[.ggml_backend_dev_count, .ggml_backend_dev_get (toSizeT index)], none⟩
    | some dev =>
      ⟨[.ggml_backend_dev_count, .ggml_backend_dev_get (toSizeT index),
        .ggml_backend_dev_name dev], some (reg.name dev)⟩

/-- `const char *llama_dart_get_device_description(int index)`. -/
def llama_dart_get_device_description (reg : Registry) (index : Int) : Ret CStr :=
  if index < 0 then ⟨[], some (some "")⟩
  else if reg.count ≤ toSizeT index then ⟨[.ggml_backend_dev_count], some (some "")⟩
  else
    match ggml_backend_dev_get reg (toSizeT index) with
    | none => ⟨[.ggml_backend_dev_count, .ggml_backend_dev_get (toSizeT index)], none⟩
    | some dev =>
      ⟨[.ggml_backend_dev_count, .ggml_backend_dev_get (toSizeT index),
        .ggml_backend_dev_description dev], some (reg.description dev)⟩

/-- `void *llama_dart_get_device_pointer(int index)`. -/
def llama_dart_get_device_pointer (reg : Registry) (index : Int) : Ret Handle :=
  if index < 0 then ⟨[], some nullptr⟩
  else if reg.count ≤ toSizeT index then ⟨[.ggml_backend_dev_count], some nullptr⟩
  else
    match ggml_backend_dev_get reg (toSizeT index) with
    | none => ⟨[.ggml_backend_dev_count, .ggml_backend_dev_get (toSizeT index)], none⟩
    | some dev =>
      ⟨[.ggml_backend_dev_count, .ggml_backend_dev_get (toSizeT index)], some dev⟩

/-- An event that looks a device up in the registry: a call of
`ggml_backend_dev_get`, `ggml_backend_dev_name` or `ggml_backend_dev_description`. -/
def Event.isDeviceLookup : Event → Bool
  | .ggml_backend_dev_get _ => true
  | .ggml_backend_dev_name _ => true
  | .ggml_backend_dev_description _ => true
  | _ => false

/-! ## Log filter and router (`llama_dart.cpp`, lines 32-65) -/

/-- Modelled from the spec: the severity type `ggml_log_level` is declared in
the runtime's header `ggml.h`, which is not among the sources.  The spec names
the severities ERROR, WARN and INFO/other; the enumerators here are the ones
the callback and its callers name, and `other` stands for any further value an
`enum` object can hold. -/
inductive ggml_log_level
  | GGML_LOG_LEVEL_NONE
  | GGML_LOG_LEVEL_DEBUG
  | GGML_LOG_LEVEL_INFO
  | GGML_LOG_LEVEL_WARN
  | GGML_LOG_LEVEL_ERROR
  | GGML_LOG_LEVEL_CONT
  | other (value : Int)
  deriving DecidableEq, Repr

/-- The C library's `strstr(haystack, needle)`: the offset of the first
occurrence of `needle` in `haystack`, or `none` for the null pointer. -/
def strstr : List Char → List Char → Option Nat
  | [], needle => if needle = [] then some 0 else none
  | c :: hay, needle =>
    if needle.isPrefixOf (c :: hay) then some 0
    else (strstr hay needle).map (· + 1)

/-- The C library's `strncmp(s1, s2, n)`: compares at most `n` characters,
stopping after a terminator; the result is the difference of the first pair of
characters that differ, the terminator counting as `0`. -/
def strncmp : List Char → List Char → Nat → Int
  | _, _, 0 => 0
  | [], [], _ + 1 => 0
  | [], b :: _, _ + 1 => 0 - (b.toNat : Int)
  | a :: _, [], _ + 1 => (a.toNat : Int)
  | a :: s1, b :: s2, n + 1 =>
    if a = b then strncmp s1 s2 n else (a.toNat : Int) - (b.toNat : Int)

/-- The callback `llama_dart_log_callback(level, text, user_data)`; the result is what it
writes.  `user_data` is ignored by the source and left out. -/
def llama_dart_log_callback (level : ggml_log_level) (text : CStr) : List Event :=
  match text with
  | none => []
  | some text =>
    if (strstr text.data "is not marked as EOG".data).isSome then []
    else if (strstr text.data "unused".data).isSome then []
    else if strncmp text.data "print_info:".data 11 = 0 then []
    else if strncmp text.data "load_tensors:".data 13 = 0 then []
    else if strncmp text.data "create_tensor:".data 14 = 0 then []
    else if strncmp text.data "load:".data 5 = 0 then []
    else if (strstr text.data "compiling pipeline".data).isSome then []
    else if (strstr text.data "loaded kernel".data).isSome then []
    else if level = .GGML_LOG_LEVEL_ERROR then [.fprintf .stderr ("LLAMA_ERR: " ++ text)]
    else if level = .GGML_LOG_LEVEL_WARN then [.fprintf .stdout ("LLAMA_WARN: " ++ text)]
    else []

/-- The substrings whose presence anywhere in a message makes the callback drop it. -/
def noiseSubstrings : List String :=
  ["is not marked as EOG", "unused", "compiling pipeline", "loaded kernel"]

/-- The prefixes that make the callback drop a message. -/
def verbosePrefixes : List String :=
  ["print_info:", "load_tensors:", "create_tensor:", "load:"]

/-- What a list of events writes to one channel. -/
def written (ch : Channel) : List Event → List String
  | [] => []
  | .fprintf c s :: es => if c = ch then s :: written ch es else written ch es
  | _ :: es => written ch es

/-! ## Initialization (`llama_dart.cpp`, lines 67-121) -/

/-- The preprocessor symbols the source tests. -/
structure BuildConfig where
  GGML_USE_CUDA : Bool
  GGML_USE_METAL : Bool
  GGML_USE_VULKAN : Bool
  __ANDROID__ : Bool
  deriving DecidableEq, Repr

/-- What the facade reads from the wrapped runtime. -/
structure Runtime where
  /-- The value of `llama_supports_gpu_offload()`. -/
  llama_supports_gpu_offload : Bool
  registry : Registry

/-- `const char *llama_dart_get_backend_name()`: an `#if` / `#elif` chain. -/
def llama_dart_get_backend_name (cfg : BuildConfig) : String :=
  if cfg.GGML_USE_CUDA then "CUDA"
  else if cfg.GGML_USE_METAL then "Metal"
  else if cfg.GGML_USE_VULKAN then "Vulkan"
  else "CPU"

/-- `bool llama_dart_gpu_supported() { return llama_supports_gpu_offload(); }` -/
def llama_dart_gpu_supported (rt : Runtime) : Bool := rt.llama_supports_gpu_offload

/-- `void llama_dart_init_logging() { llama_log_set(llama_dart_log_callback, nullptr); }` -/
def llama_dart_init_logging : List Event :=
  [.llama_log_set .llama_dart_log_callback nullptr]

/-- The macro `LOG_TAG` of `llama_dart_init`. -/
def LOG_TAG : String := "llama_dart_native"

/-- `void llama_dart_init()` of `llama_dart.cpp`: the events of one invocation. -/
def llama_dart_init (cfg : BuildConfig) (rt : Runtime) : List Event :=
  let backend := llama_dart_get_backend_name cfg
  let gpu := llama_dart_gpu_supported rt
  [.llama_backend_init] ++ llama_dart_init_logging ++
  [.entry .llama_dart_get_backend_name,
   .entry .llama_dart_gpu_supported, .llama_supports_gpu_offload,
   .fprintf .stderr "llama_dart_debug: Initializing...\n"] ++
  (if cfg.__ANDROID__ then
    [.android_log_print .ANDROID_LOG_INFO LOG_TAG "Initializing...",
     if cfg.GGML_USE_VULKAN then
       .android_log_print .ANDROID_LOG_INFO LOG_TAG "GGML_USE_VULKAN is DEFINED"
     else
       .android_log_print .ANDROID_LOG_ERROR LOG_TAG "GGML_USE_VULKAN is NOT DEFINED",
     .android_log_print .ANDROID_LOG_INFO LOG_TAG
       ("Backend: " ++ backend ++ ", GPU: " ++ (if gpu then "1" else "0"))]
   else []) ++
  [if cfg.GGML_USE_VULKAN then
     .fprintf .stderr "llama_dart_debug: GGML_USE_VULKAN is DEFINED\n"
   else
     .fprintf .stderr "llama_dart_debug: GGML_USE_VULKAN is NOT DEFINED\n",
   .fprintf .stderr
     ("llama_dart: Initializing with backend " ++ backend ++ " (GPU support directly: "
       ++ (if gpu then "1" else "0") ++ ")\n"),
   .fprintf .stdout
     ("llama_dart: Initializing with backend " ++ backend ++ " (GPU support: "
       ++ (if gpu then "YES" else "NO") ++ ")\n")]

/-- The host invokes `llama_dart_init` in a process whose events so far are
`history`.  The source keeps no state between invocations (it has no static
variable), so the invocation appends its events whatever the history is. -/
def invoke_init (cfg : BuildConfig) (rt : Runtime) (history : List Event) : List Event :=
  history ++ llama_dart_init cfg rt

/-- The number of calls of `llama_backend_init` in a list of events. -/
def bringUps (es : List Event) : Nat := es.count .llama_backend_init

/-- An event that is a call of an exported entry point or a diagnostic line. -/
def Event.isEntryOrDiagnostic : Event → Bool
  | .entry _ => true
  | .fprintf _ _ => true
  | .android_log_print _ _ _ => true
  | _ => false

/-! ## Sample inputs -/

/-- A registry of two devices, the first named `cpu0`. -/
def twoDevices : Registry where
  count := 2
  count_lt := by norm_num
  dev := fun i => 4096 + 8 * i
  name := fun h => if h = 4096 then some "cpu0" else some "gpu0"
  description := fun h => if h = 4096 then some "host CPU" else some "discrete GPU"

/-- A registry that reports `2^31` devices, one more than `INT_MAX`. -/
def hugeRegistry : Registry where
  count := 2 ^ 31
  count_lt := by norm_num
  dev := fun i => 4096 + 8 * i
  name := fun _ => some "dev"
  description := fun _ => some "a device"

/-- A CPU-only desktop build: no GPU flag, not Android. -/
def cpuBuild : BuildConfig := ⟨false, false, false, false⟩

/-- A runtime without GPU offload whose registry is `twoDevices`. -/
def cpuRuntime : Runtime := ⟨false, twoDevices⟩

/-- The four backend labels. -/
def backendLabels : List String := ["CPU", "CUDA", "Metal", "Vulkan"]

/-- Everything a list of events writes to the error channel, as one text. -/
def errorOutput (es : List Event) : String := String.join (written .stderr es)

/-- A build with both `GGML_USE_CUDA` and `GGML_USE_VULKAN` defined. -/
def cudaVulkanBuild : BuildConfig := ⟨true, false, true, false⟩

/-! ## Integer conversions -/

theorem toSizeT_of_nonneg {i : Int} (h0 : 0 ≤ i) (h1 : i < (2 : Int) ^ 31) :
    toSizeT i = i.toNat := by
  unfold toSizeT
  omega

theorem toCInt_of_lt {n : Nat} (h : n < 2 ^ 31) : toCInt n = (n : Int) := by
  unfold toCInt
  split <;> omega

theorem toCInt_le (n : Nat) : toCInt n ≤ (n : Int) := by
  unfold toCInt
  split <;> omega

theorem toCInt_lt (n : Nat) : toCInt n < (2 : Int) ^ 31 := by
  unfold toCInt
  split <;> omega

/-! ## String functions -/

/-- `strstr` finds an occurrence exactly when the needle occurs somewhere in the haystack. -/
theorem strstr_isSome_iff (hay needle : List Char) :
    (strstr hay needle).isSome = true ↔ needle <:+: hay := by
  induction hay with
  | nil => simp [strstr]
  | cons c hay ih =>
    rw [strstr, List.infix_cons_iff]
    by_cases hp : needle.isPrefixOf (c :: hay) = true
    · simp [hp, List.isPrefixOf_iff_prefix.mp hp]
    · have hn : ¬ needle <+: c :: hay := fun h => hp (List.isPrefixOf_iff_prefix.mpr h)
      simp [hp, hn, ih]

theorem char_toNat_sub_ne_zero {a b : Char} (h : a ≠ b) :
    (a.toNat : Int) - (b.toNat : Int) ≠ 0 := by
  intro h0
  apply h
  have hab : a.toNat = b.toNat := by omega
  exact Char.ext (UInt32.ext (by simpa [Char.toNat, UInt32.toNat] using hab))

/-- Comparing the first `p.length` characters with a terminator-free `p` gives `0`
exactly when the text starts with `p`. -/
theorem strncmp_eq_zero_iff (p : List Char) (hp : ∀ c ∈ p, c.toNat ≠ 0) (t : List Char) :
    strncmp t p p.length = 0 ↔ p <+: t := by
  induction p generalizing t with
  | nil => simp [strncmp]
  | cons b p ih =>
    have hb : b.toNat ≠ 0 := hp b (by simp)
    have hp2 : ∀ c ∈ p, c.toNat ≠ 0 := fun c hc => hp c (by simp [hc])
    cases t with
    | nil =>
      simp only [strncmp, List.length_cons]
      constructor
      · intro h; omega
      · intro h; simp at h
    | cons a t =>
      simp only [strncmp, List.length_cons]
      by_cases hab : a = b
      · subst hab
        simp [ih hp2 t, List.cons_prefix_cons]
      · have hne := char_toNat_sub_ne_zero hab
        simp [hab, hne, List.cons_prefix_cons]
        intro h; exact absurd h.symm hab

theorem strncmp_print_info (t : List Char) :
    strncmp t "print_info:".data 11 = 0 ↔ "print_info:".data <+: t :=
  strncmp_eq_zero_iff "print_info:".data (by decide) t

theorem strncmp_load_tensors (t : List Char) :
    strncmp t "load_tensors:".data 13 = 0 ↔ "load_tensors:".data <+: t :=
  strncmp_eq_zero_iff "load_tensors:".data (by decide) t

theorem strncmp_create_tensor (t : List Char) :
    strncmp t "create_tensor:".data 14 = 0 ↔ "create_tensor:".data <+: t :=
  strncmp_eq_zero_iff "create_tensor:".data (by decide) t

theorem strncmp_load (t : List Char) :
    strncmp t "load:".data 5 = 0 ↔ "load:".data <+: t :=
  strncmp_eq_zero_iff "load:".data (by decide) t

/-! ## Log filter and router -/

/-- A text with a noise substring or a verbose prefix is dropped at every level. -/
theorem log_callback_of_filtered (level : ggml_log_level) (t : String)
    (h : (∃ n ∈ noiseSubstrings, n.data <:+: t.data) ∨
      (∃ p ∈ verbosePrefixes, p.data <+: t.data)) :
    llama_dart_log_callback level (some t) = [] := by
  unfold llama_dart_log_callback
  show (if _ then _ else _) = _
  by_cases c1 : (strstr t.data "is not marked as EOG".data).isSome = true
  · rw [if_pos c1]
  rw [if_neg c1]
  by_cases c2 : (strstr t.data "unused".data).isSome = true
  · rw [if_pos c2]
  rw [if_neg c2]
  by_cases c3 : strncmp t.data "print_info:".data 11 = 0
  · rw [if_pos c3]
  rw [if_neg c3]
  by_cases c4 : strncmp t.data "load_tensors:".data 13 = 0
  · rw [if_pos c4]
  rw [if_neg c4]
  by_cases c5 : strncmp t.data "create_tensor:".data 14 = 0
  · rw [if_pos c5]
  rw [if_neg c5]
  by_cases c6 : strncmp t.data "load:".data 5 = 0
  · rw [if_pos c6]
  rw [if_neg c6]
  by_cases c7 : (strstr t.data "compiling pipeline".data).isSome = true
  · rw [if_pos c7]
  rw [if_neg c7]
  by_cases c8 : (strstr t.data "loaded kernel".data).isSome = true
  · rw [if_pos c8]
  exfalso
  have n1 := mt (strstr_isSome_iff _ _).mpr c1
  have n2 := mt (strstr_isSome_iff _ _).mpr c2
  have n3 := mt (strncmp_print_info _).mpr c3
  have n4 := mt (strncmp_load_tensors _).mpr c4
  have n5 := mt (strncmp_create_tensor _).mpr c5
  have n6 := mt (strncmp_load _).mpr c6
  have n7 := mt (strstr_isSome_iff _ _).mpr c7
  have n8 := mt (strstr_isSome_iff _ _).mpr c8
  rcases h with ⟨n, hn, hin⟩ | ⟨p, hp, hip⟩
  · simp only [noiseSubstrings, List.mem_cons, List.mem_singleton,
      List.not_mem_nil, or_false] at hn
    rcases hn with rfl | rfl | rfl | rfl
    · exact n1 hin
    · exact n2 hin
    · exact n7 hin
    · exact n8 hin
  · simp only [verbosePrefixes, List.mem_cons, List.mem_singleton,
      List.not_mem_nil, or_false] at hp
    rcases hp with rfl | rfl | rfl | rfl
    · exact n3 hip
    · exact n4 hip
    · exact n5 hip
    · exact n6 hip

/-- A text without noise substring and verbose prefix reaches the routing by level. -/
theorem log_callback_of_not_filtered (level : ggml_log_level) (t : String)
    (hn : ∀ n ∈ noiseSubstrings, ¬ n.data <:+: t.data)
    (hp : ∀ p ∈ verbosePrefixes, ¬ p.data <+: t.data) :
    llama_dart_log_callback level (some t) =
      if level = .GGML_LOG_LEVEL_ERROR then [.fprintf .stderr ("LLAMA_ERR: " ++ t)]
      else if level = .GGML_LOG_LEVEL_WARN then [.fprintf .stdout ("LLAMA_WARN: " ++ t)]
      else [] := by
  have h1 := mt (strstr_isSome_iff _ _).mp (hn "is not marked as EOG" (by decide))
  have h2 := mt (strstr_isSome_iff _ _).mp (hn "unused" (by decide))
  have h3 := mt (strncmp_print_info _).mp (hp "print_info:" (by decide))
  have h4 := mt (strncmp_load_tensors _).mp (hp "load_tensors:" (by decide))
  have h5 := mt (strncmp_create_tensor _).mp (hp "create_tensor:" (by decide))
  have h6 := mt (strncmp_load _).mp (hp "load:" (by decide))
  have h7 := mt (strstr_isSome_iff _ _).mp (hn "compiling pipeline" (by decide))
  have h8 := mt (strstr_isSome_iff _ _).mp (hn "loaded kernel" (by decide))
  unfold llama_dart_log_callback
  show (if _ then _ else _) = _
  rw [if_neg h1, if_neg h2, if_neg h3, if_neg h4, if_neg h5, if_neg h6, if_neg h7, if_neg h8]

/-! ## Device enumerator -/

/-- The accessors' guard fails exactly on the positions of the registry. -/
theorem guard_of_out_of_range (reg : Registry) {index : Int} (hi : IsCInt index)
    (h0 : ¬ index < 0) (h : (reg.count : Int) ≤ index) : reg.count ≤ toSizeT index := by
  obtain ⟨_, hhi⟩ := hi
  rw [toSizeT_of_nonneg (by omega) hhi]
  omega

/-- A registry count that fits in an `int` is returned unchanged. -/
theorem get_device_count_of_fits (reg : Registry) (h : reg.count < 2 ^ 31) :
    llama_dart_get_device_count reg = (reg.count : Int) :=
  toCInt_of_lt h

theorem guard_of_in_range (reg : Registry) {index : Int} (h0 : 0 ≤ index)
    (h : index < llama_dart_get_device_count reg) :
    toSizeT index = index.toNat ∧ index.toNat < reg.count := by
  have h1 := toCInt_le reg.count
  have h2 := toCInt_lt reg.count
  unfold llama_dart_get_device_count at h
  rw [toSizeT_of_nonneg h0 (by omega)]
  omega

/-- C1 (as amended): for every device registry and every `int` index that is negative or at
least the registry's own device count `ggml_backend_dev_count()`, the name and the
description accessors return the empty string, the pointer accessor returns null, and
none of the three calls `ggml_backend_dev_get`, `ggml_backend_dev_name` or
`ggml_backend_dev_description`. -/
theorem C1_out_of_range_is_absent (reg : Registry) (index : Int) (hi : IsCInt index)
    (h : index < 0 ∨ (reg.count : Int) ≤ index) :
    (llama_dart_get_device_name reg index).value = some (some "") ∧
    (llama_dart_get_device_description reg index).value = some (some "") ∧
    (llama_dart_get_device_pointer reg index).value = some nullptr ∧
    (∀ e ∈ (llama_dart_get_device_name reg index).events, e.isDeviceLookup = false) ∧
    (∀ e ∈ (llama_dart_get_device_description reg index).events, e.isDeviceLookup = false) ∧
    (∀ e ∈ (llama_dart_get_device_pointer reg index).events, e.isDeviceLookup = false) := by
  unfold llama_dart_get_device_name llama_dart_get_device_description
    llama_dart_get_device_pointer
  by_cases h0 : index < 0
  · simp [h0]
  · have hc : reg.count ≤ toSizeT index :=
      guard_of_out_of_range reg hi h0 (h.resolve_left h0)
    simp [h0, hc, Event.isDeviceLookup]

/-- C1, the scenario of the spec: with a registry of two devices the name of index 2 and
of index -1 is the empty string. -/
theorem C1_out_of_range_is_absent_witness :
    (IsCInt 2 ∧ ((2 : Int) < 0 ∨ (twoDevices.count : Int) ≤ 2)) ∧
    (IsCInt (-1) ∧ ((-1 : Int) < 0 ∨ (twoDevices.count : Int) ≤ -1)) ∧
    (llama_dart_get_device_name twoDevices 2).value = some (some "") ∧
    (llama_dart_get_device_name twoDevices (-1)).value = some (some "") :=
  ⟨by decide, by decide,
   (C1_out_of_range_is_absent twoDevices 2 (by decide) (by decide)).1,
   (C1_out_of_range_is_absent twoDevices (-1) (by decide) (by decide)).1⟩

/-- C1 as stated fails: a registry of `2^31` devices makes `llama_dart_get_device_count`
return `-2^31`, so index 0 lies outside `[0, getDeviceCount())`; yet the name accessor
looks device 0 up and returns its name. -/
theorem C1_counterexample :
    IsCInt 0 ∧
    llama_dart_get_device_count hugeRegistry = -(2 : Int) ^ 31 ∧
    ¬ ((0 : Int) ≤ 0 ∧ (0 : Int) < llama_dart_get_device_count hugeRegistry) ∧
    (llama_dart_get_device_name hugeRegistry 0).value = some (some "dev") ∧
    (llama_dart_get_device_name hugeRegistry 0).value ≠ some (some "") ∧
    Event.ggml_backend_dev_get 0 ∈ (llama_dart_get_device_name hugeRegistry 0).events ∧
    (llama_dart_get_device_pointer hugeRegistry 0).value = some 4096 ∧
    (llama_dart_get_device_pointer hugeRegistry 0).value ≠ some nullptr := by
  decide

/-- C2: for every device registry and every index with `0 <= index < getDeviceCount()`,
the name accessor returns the registry's name of the device at that index, the
description accessor the registry's description of it, and the pointer accessor the
registry's handle for that index; hence a result is non-null whenever the registry's
value is. -/
theorem C2_in_range_matches_registry (reg : Registry) (index : Int) (h0 : 0 ≤ index)
    (h : index < llama_dart_get_device_count reg) :
    (llama_dart_get_device_name reg index).value
      = some (reg.name (reg.dev index.toNat)) ∧
    (llama_dart_get_device_description reg index).value
      = some (reg.description (reg.dev index.toNat)) ∧
    (llama_dart_get_device_pointer reg index).value = some (reg.dev index.toNat) ∧
    (reg.name (reg.dev index.toNat) ≠ none →
      (llama_dart_get_device_name reg index).value ≠ some none) ∧
    (reg.description (reg.dev index.toNat) ≠ none →
      (llama_dart_get_device_description reg index).value ≠ some none) ∧
    (reg.dev index.toNat ≠ nullptr →
      (llama_dart_get_device_pointer reg index).value ≠ some nullptr) := by
  obtain ⟨hs, hlt⟩ := guard_of_in_range reg h0 h
  have hn : ¬ index < 0 := by omega
  have hc : ¬ reg.count ≤ index.toNat := by omega
  unfold llama_dart_get_device_name llama_dart_get_device_description
    llama_dart_get_device_pointer ggml_backend_dev_get
  simp [hn, hs, hc, hlt]

/-- C2, the scenario of the spec: with a registry of two devices whose device 0 is named
`cpu0`, the name of index 0 is `cpu0`. -/
theorem C2_in_range_matches_registry_witness :
    ((0 : Int) ≤ 0 ∧ (0 : Int) < llama_dart_get_device_count twoDevices) ∧
    (llama_dart_get_device_name twoDevices 0).value = some (some "cpu0") :=
  ⟨by decide, (C2_in_range_matches_registry twoDevices 0 (by decide) (by decide)).1⟩

/-! ## Log filter and router: the claims -/

/-- C3: an ERROR-level message whose text is non-null, contains no noise substring and
starts with no verbose prefix causes exactly one write, to the error channel, of the tag
`LLAMA_ERR: ` immediately followed by the text unchanged, and no write to standard output. -/
theorem C3_error_goes_to_stderr (text : String)
    (hn : ∀ n ∈ noiseSubstrings, ¬ n.data <:+: text.data)
    (hp : ∀ p ∈ verbosePrefixes, ¬ p.data <+: text.data) :
    llama_dart_log_callback .GGML_LOG_LEVEL_ERROR (some text)
      = [.fprintf .stderr ("LLAMA_ERR: " ++ text)] ∧
    written .stderr (llama_dart_log_callback .GGML_LOG_LEVEL_ERROR (some text))
      = ["LLAMA_ERR: " ++ text] ∧
    written .stdout (llama_dart_log_callback .GGML_LOG_LEVEL_ERROR (some text)) = [] := by
  have h := log_callback_of_not_filtered .GGML_LOG_LEVEL_ERROR text hn hp
  rw [if_pos rfl] at h
  rw [h]
  exact ⟨rfl, by simp [written], by simp [written]⟩

/-- C3, the scenario of the spec: `(ERROR, "allocation failed")` writes
`LLAMA_ERR: allocation failed` to the error channel only. -/
theorem C3_error_goes_to_stderr_witness :
    (∀ n ∈ noiseSubstrings, ¬ n.data <:+: "allocation failed".data) ∧
    (∀ p ∈ verbosePrefixes, ¬ p.data <+: "allocation failed".data) ∧
    llama_dart_log_callback .GGML_LOG_LEVEL_ERROR (some "allocation failed")
      = [.fprintf .stderr "LLAMA_ERR: allocation failed"] ∧
    written .stdout
      (llama_dart_log_callback .GGML_LOG_LEVEL_ERROR (some "allocation failed")) = [] :=
  ⟨by decide, by decide,
   (C3_error_goes_to_stderr "allocation failed" (by decide) (by decide)).1,
   (C3_error_goes_to_stderr "allocation failed" (by decide) (by decide)).2.2⟩

/-- C4: a WARN-level message whose text is non-null, contains no noise substring and
starts with no verbose prefix causes exactly one write, to standard output, of the tag
`LLAMA_WARN: ` immediately followed by the text unchanged, and no write to the error
channel. -/
theorem C4_warn_goes_to_stdout (text : String)
    (hn : ∀ n ∈ noiseSubstrings, ¬ n.data <:+: text.data)
    (hp : ∀ p ∈ verbosePrefixes, ¬ p.data <+: text.data) :
    llama_dart_log_callback .GGML_LOG_LEVEL_WARN (some text)
      = [.fprintf .stdout ("LLAMA_WARN: " ++ text)] ∧
    written .stdout (llama_dart_log_callback .GGML_LOG_LEVEL_WARN (some text))
      = ["LLAMA_WARN: " ++ text] ∧
    written .stderr (llama_dart_log_callback .GGML_LOG_LEVEL_WARN (some text)) = [] := by
  have h := log_callback_of_not_filtered .GGML_LOG_LEVEL_WARN text hn hp
  rw [if_neg (by decide), if_pos rfl] at h
  rw [h]
  exact ⟨rfl, by simp [written], by simp [written]⟩

/-- C4 at `(WARN, "context is full")`. -/
theorem C4_warn_goes_to_stdout_witness :
    (∀ n ∈ noiseSubstrings, ¬ n.data <:+: "context is full".data) ∧
    (∀ p ∈ verbosePrefixes, ¬ p.data <+: "context is full".data) ∧
    llama_dart_log_callback .GGML_LOG_LEVEL_WARN (some "context is full")
      = [.fprintf .stdout "LLAMA_WARN: context is full"] ∧
    written .stderr
      (llama_dart_log_callback .GGML_LOG_LEVEL_WARN (some "context is full")) = [] :=
  ⟨by decide, by decide,
   (C4_warn_goes_to_stdout "context is full" (by decide) (by decide)).1,
   (C4_warn_goes_to_stdout "context is full" (by decide) (by decide)).2.2⟩

/-- C5: at every level other than ERROR and WARN, and for every text (null, empty,
filtered or not), the callback writes nothing to either channel. -/
theorem C5_other_levels_are_silent (level : ggml_log_level) (text : CStr)
    (he : level ≠ .GGML_LOG_LEVEL_ERROR) (hw : level ≠ .GGML_LOG_LEVEL_WARN) :
    llama_dart_log_callback level text = [] ∧
    written .stderr (llama_dart_log_callback level text) = [] ∧
    written .stdout (llama_dart_log_callback level text) = [] := by
  have h : llama_dart_log_callback level text = [] := by
    cases text with
    | none => rfl
    | some t =>
      by_cases hf : (∃ n ∈ noiseSubstrings, n.data <:+: t.data) ∨
          (∃ p ∈ verbosePrefixes, p.data <+: t.data)
      · exact log_callback_of_filtered level t hf
      · rw [not_or] at hf
        rw [log_callback_of_not_filtered level t
          (fun n hn hin => hf.1 ⟨n, hn, hin⟩) (fun p hp hip => hf.2 ⟨p, hp, hip⟩),
          if_neg he, if_neg hw]
  rw [h]
  exact ⟨rfl, rfl, rfl⟩

/-- C5 at `(INFO, "allocation failed")`, a text that would be written at ERROR level. -/
theorem C5_other_levels_are_silent_witness :
    ggml_log_level.GGML_LOG_LEVEL_INFO ≠ .GGML_LOG_LEVEL_ERROR ∧
    ggml_log_level.GGML_LOG_LEVEL_INFO ≠ .GGML_LOG_LEVEL_WARN ∧
    llama_dart_log_callback .GGML_LOG_LEVEL_INFO (some "allocation failed") = [] :=
  ⟨by decide, by decide,
   (C5_other_levels_are_silent .GGML_LOG_LEVEL_INFO (some "allocation failed")
     (by decide) (by decide)).1⟩

/-- C6: at every level, a text that contains one of the noise substrings
`is not marked as EOG`, `unused`, `compiling pipeline`, `loaded kernel` at any position
is dropped: nothing is written to either channel. -/
theorem C6_noise_substring_is_dropped (level : ggml_log_level) (text : String)
    (n : String) (hn : n ∈ noiseSubstrings) (h : n.data <:+: text.data) :
    llama_dart_log_callback level (some text) = [] ∧
    written .stderr (llama_dart_log_callback level (some text)) = [] ∧
    written .stdout (llama_dart_log_callback level (some text)) = [] := by
  rw [log_callback_of_filtered level text (Or.inl ⟨n, hn, h⟩)]
  exact ⟨rfl, rfl, rfl⟩

/-- C6, the scenario of the spec: `(WARN, "unused tensor X")` writes nothing. -/
theorem C6_noise_substring_is_dropped_witness :
    "unused" ∈ noiseSubstrings ∧ "unused".data <:+: "unused tensor X".data ∧
    llama_dart_log_callback .GGML_LOG_LEVEL_WARN (some "unused tensor X") = [] :=
  ⟨by decide, by decide,
   (C6_noise_substring_is_dropped .GGML_LOG_LEVEL_WARN "unused tensor X" "unused"
     (by decide) (by decide)).1⟩

/-- C7: at every level, a text that begins with one of the prefixes `print_info:`,
`load_tensors:`, `create_tensor:`, `load:` is dropped, whatever follows the prefix:
nothing is written to either channel. -/
theorem C7_verbose_prefix_is_dropped (level : ggml_log_level) (text : String)
    (p : String) (hp : p ∈ verbosePrefixes) (h : p.data <+: text.data) :
    llama_dart_log_callback level (some text) = [] ∧
    written .stderr (llama_dart_log_callback level (some text)) = [] ∧
    written .stdout (llama_dart_log_callback level (some text)) = [] := by
  rw [log_callback_of_filtered level text (Or.inr ⟨p, hp, h⟩)]
  exact ⟨rfl, rfl, rfl⟩

/-- C7 at `(ERROR, "load: out of memory")`. -/
theorem C7_verbose_prefix_is_dropped_witness :
    "load:" ∈ verbosePrefixes ∧ "load:".data <+: "load: out of memory".data ∧
    llama_dart_log_callback .GGML_LOG_LEVEL_ERROR (some "load: out of memory") = [] :=
  ⟨by decide, by decide,
   (C7_verbose_prefix_is_dropped .GGML_LOG_LEVEL_ERROR "load: out of memory" "load:"
     (by decide) (by decide)).1⟩

/-- C8 (as amended): at every level a null text is dropped without output; the empty
string is not filtered: at ERROR level the bare tag `LLAMA_ERR: ` is written to the error
channel, at WARN level the bare tag `LLAMA_WARN: ` to standard output, and at every other
level nothing is written. -/
theorem C8_null_dropped_empty_routed (level : ggml_log_level) :
    llama_dart_log_callback level none = [] ∧
    llama_dart_log_callback level (some "") =
      (if level = .GGML_LOG_LEVEL_ERROR then [.fprintf .stderr "LLAMA_ERR: "]
       else if level = .GGML_LOG_LEVEL_WARN then [.fprintf .stdout "LLAMA_WARN: "]
       else []) := by
  refine ⟨rfl, ?_⟩
  rw [log_callback_of_not_filtered level "" (by decide) (by decide)]
  rfl

/-- C8 as stated fails: at ERROR level the empty string makes the callback write the tag
`LLAMA_ERR: ` to the error channel, and at WARN level the tag `LLAMA_WARN: ` to standard
output. -/
theorem C8_counterexample :
    llama_dart_log_callback .GGML_LOG_LEVEL_ERROR (some "")
      = [.fprintf .stderr "LLAMA_ERR: "] ∧
    written .stderr (llama_dart_log_callback .GGML_LOG_LEVEL_ERROR (some ""))
      = ["LLAMA_ERR: "] ∧
    llama_dart_log_callback .GGML_LOG_LEVEL_WARN (some "")
      = [.fprintf .stdout "LLAMA_WARN: "] ∧
    llama_dart_log_callback .GGML_LOG_LEVEL_ERROR (some "") ≠ [] := by
  decide

/-! ## Initialization -/

theorem llama_dart_init_eq (cfg : BuildConfig) (rt : Runtime) :
    ∃ rest, llama_dart_init cfg rt =
      .llama_backend_init :: .llama_log_set .llama_dart_log_callback nullptr ::
        .entry .llama_dart_get_backend_name :: rest ∧ bringUps rest = 0 := by
  refine ⟨_, rfl, ?_⟩
  obtain ⟨cuda, metal, vulkan, android⟩ := cfg
  cases android <;> cases vulkan <;> simp [bringUps]

theorem bringUps_llama_dart_init (cfg : BuildConfig) (rt : Runtime) :
    bringUps (llama_dart_init cfg rt) = 1 := by
  obtain ⟨rest, h, h0⟩ := llama_dart_init_eq cfg rt
  rw [h]
  simp only [bringUps] at h0 ⊢
  simp [h0]

theorem bringUps_invoke_init (cfg : BuildConfig) (rt : Runtime) (history : List Event) :
    bringUps (invoke_init cfg rt history) = bringUps history + 1 := by
  have h := bringUps_llama_dart_init cfg rt
  simp only [bringUps, invoke_init, List.count_append] at h ⊢
  rw [h]

theorem bringUps_iterate_invoke_init (cfg : BuildConfig) (rt : Runtime)
    (history : List Event) (n : Nat) :
    bringUps ((invoke_init cfg rt)^[n] history) = bringUps history + n := by
  induction n with
  | zero => rfl
  | succ n ih =>
    rw [Function.iterate_succ_apply', bringUps_invoke_init, ih]
    omega

theorem count_entry_llama_dart_init (cfg : BuildConfig) (rt : Runtime) (f : EntryPoint) :
    (llama_dart_init cfg rt).count (.entry f) =
      if f = .llama_dart_get_backend_name ∨ f = .llama_dart_gpu_supported then 1 else 0 := by
  obtain ⟨cuda, metal, vulkan, android⟩ := cfg
  cases android <;> cases vulkan <;> cases f <;>
    simp [llama_dart_init, llama_dart_init_logging, List.count_cons]

/-- C9 (as amended): every invocation of `llama_dart_init` calls exactly two other exported
entry points, `llama_dart_get_backend_name` and `llama_dart_gpu_supported`, once each; it
calls none of `llama_dart_get_device_count`, `llama_dart_get_device_name`,
`llama_dart_get_device_description` and `llama_dart_get_device_pointer`. -/
theorem C9_init_calls_two_entry_points (cfg : BuildConfig) (rt : Runtime) :
    (llama_dart_init cfg rt).count (.entry .llama_dart_get_backend_name) = 1 ∧
    (llama_dart_init cfg rt).count (.entry .llama_dart_gpu_supported) = 1 ∧
    Event.entry .llama_dart_get_device_count ∉ llama_dart_init cfg rt ∧
    Event.entry .llama_dart_get_device_name ∉ llama_dart_init cfg rt ∧
    Event.entry .llama_dart_get_device_description ∉ llama_dart_init cfg rt ∧
    Event.entry .llama_dart_get_device_pointer ∉ llama_dart_init cfg rt ∧
    (∀ f, Event.entry f ∈ llama_dart_init cfg rt →
      f = .llama_dart_get_backend_name ∨ f = .llama_dart_gpu_supported) := by
  have hc := count_entry_llama_dart_init cfg rt
  refine ⟨by rw [hc]; rfl, by rw [hc]; rfl, ?_, ?_, ?_, ?_, ?_⟩
  · rw [← List.count_eq_zero, hc]; rfl
  · rw [← List.count_eq_zero, hc]; rfl
  · rw [← List.count_eq_zero, hc]; rfl
  · rw [← List.count_eq_zero, hc]; rfl
  · intro f hf
    by_contra hne
    have h0 := hc f
    rw [if_neg hne, List.count_eq_zero] at h0
    exact h0 hf

/-- C9 as stated fails: on a CPU-only build the events of `llama_dart_init` contain no call
of any of the four device accessors. -/
theorem C9_counterexample :
    Event.entry .llama_dart_get_device_count ∉ llama_dart_init cpuBuild cpuRuntime ∧
    Event.entry .llama_dart_get_device_name ∉ llama_dart_init cpuBuild cpuRuntime ∧
    Event.entry .llama_dart_get_device_description ∉ llama_dart_init cpuBuild cpuRuntime ∧
    Event.entry .llama_dart_get_device_pointer ∉ llama_dart_init cpuBuild cpuRuntime := by
  decide

/-- C10: every invocation of `llama_dart_init`, whatever the events of the process so far
(the function reads no initialized flag), calls `llama_backend_init` exactly once and next
calls `llama_log_set(llama_dart_log_callback, nullptr)`; these two calls are all that
happens before the first call of an exported entry point and the first diagnostic line;
hence `n` invocations perform exactly `n` calls of `llama_backend_init`. -/
theorem C10_init_brings_up_then_installs_sink (cfg : BuildConfig) (rt : Runtime)
    (history : List Event) (n : Nat) :
    bringUps (llama_dart_init cfg rt) = 1 ∧
    (llama_dart_init cfg rt).takeWhile (fun e => !e.isEntryOrDiagnostic)
      = [.llama_backend_init, .llama_log_set .llama_dart_log_callback nullptr] ∧
    invoke_init cfg rt history = history ++ llama_dart_init cfg rt ∧
    bringUps (invoke_init cfg rt history) = bringUps history + 1 ∧
    bringUps ((invoke_init cfg rt)^[n] history) = bringUps history + n := by
  refine ⟨bringUps_llama_dart_init cfg rt, ?_, rfl, bringUps_invoke_init cfg rt history,
    bringUps_iterate_invoke_init cfg rt history n⟩
  obtain ⟨rest, h, _⟩ := llama_dart_init_eq cfg rt
  rw [h]
  simp [List.takeWhile, Event.isEntryOrDiagnostic]

/-! ## Backend identity -/

/-- C11: for every build configuration `llama_dart_get_backend_name` returns one of the four
labels `CPU`, `CUDA`, `Metal`, `Vulkan` (each of which some configuration yields); it
returns `CPU` exactly when none of the three GPU flags is defined; when exactly one flag
is defined it returns that flag's label; and the label is determined by the three GPU
flags alone, so every call in a given build returns the same label. -/
theorem C11_backend_name_is_label (cfg : BuildConfig) :
    llama_dart_get_backend_name cfg ∈ backendLabels ∧
    (∀ l ∈ backendLabels, ∃ c, llama_dart_get_backend_name c = l) ∧
    (llama_dart_get_backend_name cfg = "CPU" ↔
      cfg.GGML_USE_CUDA = false ∧ cfg.GGML_USE_METAL = false ∧
        cfg.GGML_USE_VULKAN = false) ∧
    (cfg.GGML_USE_CUDA = true ∧ cfg.GGML_USE_METAL = false ∧ cfg.GGML_USE_VULKAN = false →
      llama_dart_get_backend_name cfg = "CUDA") ∧
    (cfg.GGML_USE_CUDA = false ∧ cfg.GGML_USE_METAL = true ∧ cfg.GGML_USE_VULKAN = false →
      llama_dart_get_backend_name cfg = "Metal") ∧
    (cfg.GGML_USE_CUDA = false ∧ cfg.GGML_USE_METAL = false ∧ cfg.GGML_USE_VULKAN = true →
      llama_dart_get_backend_name cfg = "Vulkan") ∧
    (∀ c : BuildConfig, c.GGML_USE_CUDA = cfg.GGML_USE_CUDA →
      c.GGML_USE_METAL = cfg.GGML_USE_METAL → c.GGML_USE_VULKAN = cfg.GGML_USE_VULKAN →
      llama_dart_get_backend_name c = llama_dart_get_backend_name cfg) := by
  refine ⟨?_, ?_, ?_, ?_, ?_, ?_, ?_⟩
  · obtain ⟨cuda, metal, vulkan, android⟩ := cfg
    cases cuda <;> cases metal <;> cases vulkan <;> cases android <;> decide
  · intro l hl
    simp only [backendLabels, List.mem_cons, List.mem_singleton, List.not_mem_nil,
      or_false] at hl
    rcases hl with rfl | rfl | rfl | rfl
    · exact ⟨⟨false, false, false, false⟩, rfl⟩
    · exact ⟨⟨true, false, false, false⟩, rfl⟩
    · exact ⟨⟨false, true, false, false⟩, rfl⟩
    · exact ⟨⟨false, false, true, false⟩, rfl⟩
  · obtain ⟨cuda, metal, vulkan, android⟩ := cfg
    cases cuda <;> cases metal <;> cases vulkan <;> cases android <;> decide
  · rintro ⟨h1, h2, h3⟩
    simp [llama_dart_get_backend_name, h1]
  · rintro ⟨h1, h2, h3⟩
    simp [llama_dart_get_backend_name, h1, h2]
  · rintro ⟨h1, h2, h3⟩
    simp [llama_dart_get_backend_name, h1, h2, h3]
  · intro c h1 h2 h3
    simp [llama_dart_get_backend_name, h1, h2, h3]

/-! ## Device count and lookup safety -/

/-- C12 (as amended): for every registry whose device count is at most `INT_MAX`
(`2^31 - 1`), `llama_dart_get_device_count` returns a non-negative `int` equal to that
count; for every registry that reports no devices it returns 0; and for every registry
the value returned is an `int` congruent to the count modulo `2^32`. -/
theorem C12_device_count_when_it_fits (reg : Registry) (h : reg.count < 2 ^ 31) :
    llama_dart_get_device_count reg = (reg.count : Int) ∧
    0 ≤ llama_dart_get_device_count reg ∧
    (reg.count = 0 → llama_dart_get_device_count reg = 0) ∧
    (∀ r : Registry, IsCInt (llama_dart_get_device_count r) ∧
      (llama_dart_get_device_count r - (r.count : Int)) % (2 : Int) ^ 32 = 0) := by
  have he := get_device_count_of_fits reg h
  refine ⟨he, by rw [he]; exact Int.ofNat_nonneg _, fun h0 => by rw [he, h0]; rfl, ?_⟩
  intro r
  unfold IsCInt llama_dart_get_device_count toCInt
  split <;> refine ⟨⟨?_, ?_⟩, ?_⟩ <;> omega

/-- C12 at a registry of two devices: the count returned is 2. -/
theorem C12_device_count_when_it_fits_witness :
    twoDevices.count < 2 ^ 31 ∧ llama_dart_get_device_count twoDevices = 2 :=
  ⟨by decide, (C12_device_count_when_it_fits twoDevices (by decide)).1⟩

/-- C12 as stated fails: for a registry that reports `2^31` devices the function returns
`-2^31`, which is negative and differs from the registry's count. -/
theorem C12_counterexample :
    hugeRegistry.count = 2 ^ 31 ∧
    llama_dart_get_device_count hugeRegistry = -(2 : Int) ^ 31 ∧
    llama_dart_get_device_count hugeRegistry < 0 ∧
    llama_dart_get_device_count hugeRegistry ≠ (hugeRegistry.count : Int) := by
  decide

/-- The events and the outcome of the three accessors when the guard lets the index
through. -/
theorem accessors_of_guard_passed (reg : Registry) (index : Int) (h0 : ¬ index < 0)
    (hc : ¬ reg.count ≤ toSizeT index) :
    llama_dart_get_device_name reg index =
      ⟨[.ggml_backend_dev_count, .ggml_backend_dev_get (toSizeT index),
        .ggml_backend_dev_name (reg.dev (toSizeT index))],
       some (reg.name (reg.dev (toSizeT index)))⟩ ∧
    llama_dart_get_device_description reg index =
      ⟨[.ggml_backend_dev_count, .ggml_backend_dev_get (toSizeT index),
        .ggml_backend_dev_description (reg.dev (toSizeT index))],
       some (reg.description (reg.dev (toSizeT index)))⟩ ∧
    llama_dart_get_device_pointer reg index =
      ⟨[.ggml_backend_dev_count, .ggml_backend_dev_get (toSizeT index)],
       some (reg.dev (toSizeT index))⟩ := by
  have hlt : toSizeT index < reg.count := by omega
  unfold llama_dart_get_device_name llama_dart_get_device_description
    llama_dart_get_device_pointer ggml_backend_dev_get
  simp [h0, hc, hlt]

/-- The accessors make no lookup when the guard holds the index back. -/
theorem accessors_of_guard_failed (reg : Registry) (index : Int)
    (h : index < 0 ∨ reg.count ≤ toSizeT index) :
    ((llama_dart_get_device_name reg index).events = [] ∨
      (llama_dart_get_device_name reg index).events = [.ggml_backend_dev_count]) ∧
    ((llama_dart_get_device_description reg index).events = [] ∨
      (llama_dart_get_device_description reg index).events = [.ggml_backend_dev_count]) ∧
    ((llama_dart_get_device_pointer reg index).events = [] ∨
      (llama_dart_get_device_pointer reg index).events = [.ggml_backend_dev_count]) ∧
    (llama_dart_get_device_name reg index).value = some (some "") ∧
    (llama_dart_get_device_description reg index).value = some (some "") ∧
    (llama_dart_get_device_pointer reg index).value = some nullptr := by
  unfold llama_dart_get_device_name llama_dart_get_device_description
    llama_dart_get_device_pointer
  by_cases h0 : index < 0
  · simp [h0]
  · have hc : reg.count ≤ toSizeT index := h.resolve_left h0
    simp [h0, hc]

/-- C14: in every call of the three accessors, for every `int` index and every registry,
each call of `ggml_backend_dev_get` passes the caller's index itself, which then satisfies
`0 <= index < ggml_backend_dev_count()`; so the lookup's assertion holds and no accessor
ends in the lookup's failure branch. -/
theorem C14_lookup_index_in_range (reg : Registry) (index : Int) (hi : IsCInt index) :
    (∀ i, Event.ggml_backend_dev_get i ∈ (llama_dart_get_device_name reg index).events →
      (i : Int) = index ∧ 0 ≤ index ∧ i < reg.count ∧ ggml_backend_dev_get reg i ≠ none) ∧
    (∀ i, Event.ggml_backend_dev_get i ∈
        (llama_dart_get_device_description reg index).events →
      (i : Int) = index ∧ 0 ≤ index ∧ i < reg.count ∧ ggml_backend_dev_get reg i ≠ none) ∧
    (∀ i, Event.ggml_backend_dev_get i ∈ (llama_dart_get_device_pointer reg index).events →
      (i : Int) = index ∧ 0 ≤ index ∧ i < reg.count ∧ ggml_backend_dev_get reg i ≠ none) ∧
    (llama_dart_get_device_name reg index).value ≠ none ∧
    (llama_dart_get_device_description reg index).value ≠ none ∧
    (llama_dart_get_device_pointer reg index).value ≠ none := by
  by_cases hg : index < 0 ∨ reg.count ≤ toSizeT index
  · obtain ⟨e1, e2, e3, v1, v2, v3⟩ := accessors_of_guard_failed reg index hg
    refine ⟨?_, ?_, ?_, by rw [v1]; simp, by rw [v2]; simp, by rw [v3]; simp⟩
    · intro i hmem
      rcases e1 with e | e <;> rw [e] at hmem <;> simp at hmem
    · intro i hmem
      rcases e2 with e | e <;> rw [e] at hmem <;> simp at hmem
    · intro i hmem
      rcases e3 with e | e <;> rw [e] at hmem <;> simp at hmem
  · rw [not_or] at hg
    obtain ⟨h0, hc⟩ := hg
    obtain ⟨e1, e2, e3⟩ := accessors_of_guard_passed reg index h0 hc
    have hs : toSizeT index = index.toNat := toSizeT_of_nonneg (by omega) hi.2
    have key : ∀ i, i = toSizeT index →
        (i : Int) = index ∧ 0 ≤ index ∧ i < reg.count ∧ ggml_backend_dev_get reg i ≠ none := by
      intro i hieq
      have hlt : i < reg.count := by omega
      refine ⟨by omega, by omega, hlt, ?_⟩
      unfold ggml_backend_dev_get
      simp [hlt]
    refine ⟨?_, ?_, ?_, by rw [e1]; simp, by rw [e2]; simp, by rw [e3]; simp⟩
    · intro i hmem
      rw [e1] at hmem
      exact key i (by simpa using hmem)
    · intro i hmem
      rw [e2] at hmem
      exact key i (by simpa using hmem)
    · intro i hmem
      rw [e3] at hmem
      exact key i (by simpa using hmem)

/-- C14 at a registry of two devices and index 1: the one lookup made passes index 1. -/
theorem C14_lookup_index_in_range_witness :
    IsCInt 1 ∧
    Event.ggml_backend_dev_get 1 ∈ (llama_dart_get_device_name twoDevices 1).events ∧
    (1 : Nat) < twoDevices.count ∧
    (llama_dart_get_device_name twoDevices 1).value ≠ none :=
  ⟨by decide, by decide,
   ((C14_lookup_index_in_range twoDevices 1 (by decide)).1 1 (by decide)).2.2.1,
   (C14_lookup_index_in_range twoDevices 1 (by decide)).2.2.2.1⟩

/-! ## Diagnostic lines of the initialization -/

/-- The lines `llama_dart_init` writes to the error channel, in order. -/
theorem written_stderr_llama_dart_init (cfg : BuildConfig) (rt : Runtime) :
    written .stderr (llama_dart_init cfg rt) =
      ["llama_dart_debug: Initializing...\n",
       if cfg.GGML_USE_VULKAN then "llama_dart_debug: GGML_USE_VULKAN is DEFINED\n"
       else "llama_dart_debug: GGML_USE_VULKAN is NOT DEFINED\n",
       "llama_dart: Initializing with backend " ++ llama_dart_get_backend_name cfg
         ++ " (GPU support directly: "
         ++ (if llama_dart_gpu_supported rt then "1" else "0") ++ ")\n"] := by
  obtain ⟨cuda, metal, vulkan, android⟩ := cfg
  cases android <;> cases vulkan <;> rfl

/-- The one line `llama_dart_init` writes to standard output. -/
theorem written_stdout_llama_dart_init (cfg : BuildConfig) (rt : Runtime) :
    written .stdout (llama_dart_init cfg rt) =
      ["llama_dart: Initializing with backend " ++ llama_dart_get_backend_name cfg
         ++ " (GPU support: "
         ++ (if llama_dart_gpu_supported rt then "YES" else "NO") ++ ")\n"] := by
  obtain ⟨cuda, metal, vulkan, android⟩ := cfg
  cases android <;> cases vulkan <;> rfl

set_option maxRecDepth 20000 in
/-- Whether the error output of `llama_dart_init` contains the two Vulkan markers. -/
theorem vulkan_marker_in_errorOutput (cfg : BuildConfig) (rt : Runtime) :
    ("GGML_USE_VULKAN is DEFINED".data <:+: (errorOutput (llama_dart_init cfg rt)).data
      ↔ cfg.GGML_USE_VULKAN = true) ∧
    ("GGML_USE_VULKAN is NOT DEFINED".data <:+: (errorOutput (llama_dart_init cfg rt)).data
      ↔ cfg.GGML_USE_VULKAN = false) := by
  unfold errorOutput
  rw [written_stderr_llama_dart_init]
  obtain ⟨cuda, metal, vulkan, android⟩ := cfg
  obtain ⟨gpu, reg⟩ := rt
  show (_ <:+: (String.join [_, if vulkan = true then _ else _,
      _ ++ llama_dart_get_backend_name ⟨cuda, metal, vulkan, android⟩ ++ _
        ++ (if gpu = true then "1" else "0") ++ _]).data ↔ vulkan = true) ∧
    (_ <:+: (String.join [_, if vulkan = true then _ else _,
      _ ++ llama_dart_get_backend_name ⟨cuda, metal, vulkan, android⟩ ++ _
        ++ (if gpu = true then "1" else "0") ++ _]).data ↔ vulkan = false)
  cases cuda <;> cases metal <;> cases vulkan <;> cases android <;> cases gpu <;> decide

/-- C13: for every build configuration and every value of the runtime's GPU-offload flag,
the single line `llama_dart_init` writes to standard output is
`llama_dart: Initializing with backend <B> (GPU support: <G>)` with a line feed, where
`<B>` is the result of `llama_dart_get_backend_name` and `<G>` is `YES` when
`llama_dart_gpu_supported` is true and `NO` otherwise; the error channel receives a line
with the same label and the flag printed as `1` or `0`; and the error output contains
`GGML_USE_VULKAN is DEFINED` exactly when the Vulkan flag is defined and
`GGML_USE_VULKAN is NOT DEFINED` exactly when it is not. -/
theorem C13_init_diagnostics_report_queries (cfg : BuildConfig) (rt : Runtime) :
    written .stdout (llama_dart_init cfg rt) =
      ["llama_dart: Initializing with backend " ++ llama_dart_get_backend_name cfg
        ++ " (GPU support: "
        ++ (if llama_dart_gpu_supported rt then "YES" else "NO") ++ ")\n"] ∧
    ("llama_dart: Initializing with backend " ++ llama_dart_get_backend_name cfg
        ++ " (GPU support directly: "
        ++ (if llama_dart_gpu_supported rt then "1" else "0") ++ ")\n")
      ∈ written .stderr (llama_dart_init cfg rt) ∧
    ("GGML_USE_VULKAN is DEFINED".data <:+: (errorOutput (llama_dart_init cfg rt)).data
      ↔ cfg.GGML_USE_VULKAN = true) ∧
    ("GGML_USE_VULKAN is NOT DEFINED".data <:+: (errorOutput (llama_dart_init cfg rt)).data
      ↔ cfg.GGML_USE_VULKAN = false) := by
  refine ⟨written_stdout_llama_dart_init cfg rt, ?_,
    (vulkan_marker_in_errorOutput cfg rt).1, (vulkan_marker_in_errorOutput cfg rt).2⟩
  rw [written_stderr_llama_dart_init]
  simp

/-- C15: `llama_dart_get_backend_name` resolves the GPU flags by the precedence CUDA, Metal,
Vulkan: it returns `CUDA` whenever `GGML_USE_CUDA` is defined, `Metal` whenever
`GGML_USE_METAL` is defined and `GGML_USE_CUDA` is not, and `Vulkan` exactly when
`GGML_USE_VULKAN` is defined and neither other flag is; so with `GGML_USE_VULKAN` and
another GPU flag defined, `llama_dart_init` reports a backend other than Vulkan and also
prints `GGML_USE_VULKAN is DEFINED`, as the build with CUDA and Vulkan shows. -/
theorem C15_backend_precedence (cfg : BuildConfig) :
    (cfg.GGML_USE_CUDA = true → llama_dart_get_backend_name cfg = "CUDA") ∧
    (cfg.GGML_USE_CUDA = false → cfg.GGML_USE_METAL = true →
      llama_dart_get_backend_name cfg = "Metal") ∧
    (llama_dart_get_backend_name cfg = "Vulkan" ↔
      cfg.GGML_USE_VULKAN = true ∧ cfg.GGML_USE_CUDA = false ∧
        cfg.GGML_USE_METAL = false) ∧
    (cfg.GGML_USE_VULKAN = true →
      (cfg.GGML_USE_CUDA = true ∨ cfg.GGML_USE_METAL = true) →
      ∀ rt, llama_dart_get_backend_name cfg ≠ "Vulkan" ∧
        "llama_dart_debug: GGML_USE_VULKAN is DEFINED\n"
          ∈ written .stderr (llama_dart_init cfg rt)) ∧
    (llama_dart_get_backend_name cudaVulkanBuild = "CUDA" ∧
      written .stdout (llama_dart_init cudaVulkanBuild cpuRuntime)
        = ["llama_dart: Initializing with backend CUDA (GPU support: NO)\n"] ∧
      "llama_dart_debug: GGML_USE_VULKAN is DEFINED\n"
        ∈ written .stderr (llama_dart_init cudaVulkanBuild cpuRuntime)) := by
  refine ⟨?_, ?_, ?_, ?_, by decide⟩
  · intro h
    simp [llama_dart_get_backend_name, h]
  · intro h1 h2
    simp [llama_dart_get_backend_name, h1, h2]
  · obtain ⟨cuda, metal, vulkan, android⟩ := cfg
    cases cuda <;> cases metal <;> cases vulkan <;> cases android <;> decide
  · intro hv hor rt
    refine ⟨?_, ?_⟩
    · obtain ⟨cuda, metal, vulkan, android⟩ := cfg
      cases cuda <;> cases metal <;> cases vulkan <;> cases android <;> simp_all <;> decide
    · rw [written_stderr_llama_dart_init, hv]
      simp

end LlamaDart
